import Mathlib

/-!
Verification of the Toronto housing price predictor against its
specification.  The training pipeline (`train_models.py`) and the
prediction service (`src/api/predict.py`) are shallowly embedded below;
dataframes become lists of named columns, machine floats become exact
rationals extended with IEEE special values where division by zero
matters, and the HTTP handler becomes a pure function from an abstract
environment (model files, latest row, history) to a response.
-/

namespace THPP

/-! Training side: `train_models.py`. -/

/-- A dataframe column: either a numeric (float) column or a text column.
`select_dtypes(include=[np.number])` keeps exactly the numeric ones. -/
inductive ColData
  | num (vals : List ℚ)
  | str (vals : List String)
deriving Repr, DecidableEq

/-- Is a column numeric (kept by `select_dtypes(include=[np.number])`)? -/
def ColData.isNum : ColData → Bool
  | .num _ => true
  | .str _ => false

/-- Numeric payload of a column (empty for text columns). -/
def ColData.numVals : ColData → List ℚ
  | .num vs => vs
  | .str _ => []

/-- The `toronto_housing` table as fetched and sorted by
`fetch_data_from_supabase`: the `ref_date` key column (a month index)
plus the remaining named columns. -/
structure DFrame where
  dates : List ℕ
  cols : List (String × ColData)
deriving Repr, DecidableEq

/-- Look up a column by name and require it to be numeric. -/
def getNumCol (cs : List (String × ColData)) (name : String) : Option (List ℚ) :=
  match cs.lookup name with
  | some (ColData.num vs) => some vs
  | _ => none

/-- Output of `build_supervised_dataset`: feature matrix `X` (named
columns restricted to the kept rows), target vector `y`, and the aligned
`ref_date` vector. -/
structure SupDataset where
  featureNames : List String
  X : List (String × List ℚ)
  y : List ℚ
  dates : List ℕ
deriving Repr, DecidableEq

/-- The test `name.startswith('target_')`, computed on the character
list so that it evaluates by kernel reduction. -/
def isShiftedTargetName (name : String) : Bool :=
  "target_".data.isPrefixOf name.data

/-- Column-name exclusion used by `build_supervised_dataset`:
`exclude_cols = ['ref_date'] + [col for col in df_work.columns if
col.startswith('target_')]`.  The generated shifted column
`target_h{horizon}` always starts with `target_`, so on the original
columns the exclusion is exactly this predicate. -/
def excludedName (name : String) : Bool :=
  name == "ref_date" || isShiftedTargetName name

/-- Embedding of `build_supervised_dataset(df, target_col, horizon)`.

The source shifts the target column by `-horizon`
(`df_work[target_col].shift(-horizon)`), so row `i`'s shifted value is
the target value at row `i + horizon` (NaN once `i + horizon` runs past
the end), drops the rows whose shifted target is NaN
(`dropna(subset=[target_name])`), and keeps as features every remaining
numeric column except `ref_date` and the `target_`-prefixed columns.
Returns `none` when the designated target column is missing or
non-numeric (the source would raise there). -/
def build_supervised_dataset (df : DFrame) (target_col : String) (horizon : ℕ) :
    Option SupDataset :=
  match getNumCol df.cols target_col with
  | none => none
  | some tvals =>
    let n := df.dates.length
    -- rows surviving `dropna(subset=[target_name])`
    let keep := (List.range n).filter (fun i => decide (i + horizon < tvals.length))
    let numeric := (df.cols.filter (fun c => !excludedName c.1)).filter
      (fun c => c.2.isNum)
    some
      { featureNames := numeric.map (·.1)
        X := numeric.map (fun c => (c.1, keep.map (fun i => c.2.numVals.getD i 0)))
        y := keep.map (fun i => tvals.getD (i + horizon) 0)
        dates := keep.map (fun i => df.dates.getD i 0) }

/-- The chronological 80/20 split of `main`:
`split_idx = int(len(X) * 0.8)`, train = rows before `split_idx`, test =
rows from `split_idx` on.  For a nonnegative count `n`, `int(n * 0.8)`
in binary floating point equals `⌊4n/5⌋` (the double product `n * 0.8`
lands in `[4n/5, 4n/5 + 1/2)`), so the index is `4 * n / 5` in `ℕ`. -/
def timeSplit {α : Type} (xs : List α) : List α × List α :=
  (xs.take (4 * xs.length / 5), xs.drop (4 * xs.length / 5))

/-! Prediction service: `src/api/predict.py`.

Request values are Python floats.  For the claims at stake the only
float behaviour that matters is division: a nonzero numerator over a
zero denominator yields a signed infinity and `0/0` yields NaN (the
`current_hpi` scalar is a numpy float64, so the division emits a special
value instead of raising).  We therefore model floats as exact rationals
extended with the IEEE special values. -/

/-- A float value: finite rational or an IEEE special value. -/
inductive FVal
  | fin (q : ℚ)
  | inf
  | neginf
  | nan
deriving Repr, DecidableEq

/-- IEEE-style division of two finite values. -/
def fdiv (a b : ℚ) : FVal :=
  if b = 0 then (if 0 < a then .inf else if a < 0 then .neginf else .nan)
  else .fin (a / b)

/-- Multiplication by the positive literal `100` (`... * 100`), which
preserves infinities and NaN. -/
def FVal.mul100 : FVal → FVal
  | .fin q => .fin (q * 100)
  | x => x

/-- Supported horizons of the service (`HORIZONS` in `predict.py`); the
query parameter is a parsed Python `int`. -/
def SERVE_HORIZONS : List ℤ := [1, 2, 3, 6, 12, 24, 36]

/-- The test `s.lower() == t` for an already-lowercase `t`, computed on
character lists so that it evaluates by kernel reduction. -/
def lowerEq (s t : String) : Bool :=
  s.data.map Char.toLower == t.data

/-- Embedding of
`params.get('include_historical', ['false'])[0].lower() == 'true'`. -/
def parse_include_historical (v : Option String) : Bool :=
  lowerEq (v.getD "false") "true"

/-- The single most recent row returned by `fetch_latest_data`:
`ref_date` plus the named numeric columns. -/
structure LatestRow where
  ref_date : ℕ
  cols : List (String × ℚ)
deriving Repr, DecidableEq

/-- Abstract request-time environment: which model artifact files exist,
what each loaded regressor predicts from a feature vector, the latest
table row (`none` = empty table), and the chronological history. -/
structure ServeEnv where
  modelFile : ℤ → Bool
  modelFun : ℤ → List ℚ → ℚ
  latest : Option LatestRow
  history : List (ℕ × ℚ)

/-- Successful JSON response body. -/
structure PredBody where
  horizon_months : ℤ
  current_hpi : ℚ
  predicted_hpi : ℚ
  percentage_change : FVal
  ref_date : ℕ
  historical : Option (List (ℕ × ℚ))
deriving Repr, DecidableEq

/-- A handler response: success body or `{error: message}` with a
status code. -/
inductive Resp
  | ok (body : PredBody)
  | err (code : ℕ) (msg : String)
deriving Repr, DecidableEq

/-- Is a response a success body? -/
def Resp.isOk : Resp → Bool
  | .ok _ => true
  | .err _ _ => false

/-- Erase the optional `historical` field, leaving everything else. -/
def Resp.dropHistorical : Resp → Resp
  | .ok b => .ok { b with historical := none }
  | e => e

/-- Embedding of `fetch_historical_data(months)`: last `months` rows by
date descending, reversed back into chronological order. -/
def fetch_historical_data (history : List (ℕ × ℚ)) (months : ℕ) : List (ℕ × ℚ) :=
  (history.reverse.take months).reverse

/-- Embedding of `handler.do_GET` with the query already parsed: the
`horizon` parameter as an integer and the raw `include_historical`
value.  Returns the response together with a flag recording whether
`load_models()` was invoked.  The current-value lookup
(`df['housing_price_index_value']`, whose failure the bare `except`
maps to a 500) is evaluated before the pure model call; the source
evaluates it just after, with the same observable response. -/
def do_GET (env : ServeEnv) (horizon : ℤ) (include_historical : Option String) :
    Resp × Bool :=
  if horizon ∈ SERVE_HORIZONS then
    if env.modelFile horizon then
      match env.latest with
      | none => (.err 400 "No data found in toronto_housing table", true)
      | some row =>
        match row.cols.lookup "housing_price_index_value" with
        | none => (.err 500 "KeyError: housing_price_index_value", true)
        | some current =>
          let feats := (row.cols.filter
            (fun c => !(c.1 == "ref_date" || c.1 == "housing_price_index_value"))).map
            (·.2)
          let prediction := env.modelFun horizon feats
          let pct := (fdiv (prediction - current) current).mul100
          (.ok
            { horizon_months := horizon
              current_hpi := current
              predicted_hpi := prediction
              percentage_change := pct
              ref_date := row.ref_date
              historical :=
                if parse_include_historical include_historical then
                  some (fetch_historical_data env.history 12)
                else none }, true)
    else (.err 404 "Model for horizon not found", true)
  else (.err 400 "Invalid horizon. Must be one of [1, 2, 3, 6, 12, 24, 36]", false)

/-- Environment for the C5 instance: latest row has `hpi = 150`, the
model predicts `160.5`. -/
def scenarioEnv : ServeEnv :=
  { modelFile := fun _ => true
    modelFun := fun _ _ => 321 / 2
    latest := some ⟨202501, [("housing_price_index_value", 150),
      ("unemployment_rate", 5)]⟩
    history := [] }

/-- The success body `scenarioEnv` produces: `percentage_change = 7`. -/
def scenarioBody : PredBody :=
  { horizon_months := 1
    current_hpi := 150
    predicted_hpi := 321 / 2
    percentage_change := .fin 7
    ref_date := 202501
    historical := none }

/-- Environment with every artifact present but an empty table. -/
def emptyTableEnv : ServeEnv :=
  { modelFile := fun _ => true
    modelFun := fun _ _ => 0
    latest := none
    history := [] }

/-- Environment with no artifact files at all. -/
def noArtifactEnv : ServeEnv :=
  { modelFile := fun _ => false
    modelFun := fun _ _ => 0
    latest := none
    history := [] }

/-- Environment whose latest row carries `housing_price_index_value = 0`
while the model predicts `160.5`. -/
def zeroHpiEnv : ServeEnv :=
  { modelFile := fun _ => true
    modelFun := fun _ _ => 321 / 2
    latest := some ⟨202501, [("housing_price_index_value", 0),
      ("unemployment_rate", 5)]⟩
    history := [] }

/-! Lemmas and claim theorems. -/

/-- Filtering `i + h < m` over `range n` keeps the initial segment
`range (min n (m - h))`. -/
lemma filter_range_lt (n m h : ℕ) :
    (List.range n).filter (fun i => decide (i + h < m)) = List.range (min n (m - h)) := by
  induction n with
  | zero => simp
  | succ n ih =>
    rw [List.range_succ, List.filter_append, ih]
    by_cases hc : n + h < m
    · have h1 : min n (m - h) = n := by omega
      have h2 : min (n + 1) (m - h) = n + 1 := by omega
      simp [h1, h2, hc, List.range_succ]
    · have h1 : min n (m - h) = min (n + 1) (m - h) := by omega
      simp [h1, hc]

/-- Under the hypotheses used throughout (the target column is present,
numeric, and as long as the date column) the kept row set is the initial
segment of length `n - horizon`. -/
lemma build_eq (df : DFrame) (target_col : String) (horizon : ℕ)
    (tvals : List ℚ) (hcol : getNumCol df.cols target_col = some tvals)
    (hlen : tvals.length = df.dates.length) :
    build_supervised_dataset df target_col horizon =
      some
        { featureNames := ((df.cols.filter (fun c => !excludedName c.1)).filter
            (fun c => c.2.isNum)).map (·.1)
          X := ((df.cols.filter (fun c => !excludedName c.1)).filter
            (fun c => c.2.isNum)).map
              (fun c => (c.1, (List.range (df.dates.length - horizon)).map
                (fun i => c.2.numVals.getD i 0)))
          y := (List.range (df.dates.length - horizon)).map
            (fun i => tvals.getD (i + horizon) 0)
          dates := (List.range (df.dates.length - horizon)).map
            (fun i => df.dates.getD i 0) } := by
  rw [build_supervised_dataset, hcol]
  have hk : min df.dates.length (tvals.length - horizon) =
      df.dates.length - horizon := by omega
  simp only [filter_range_lt, hk]

/-- A successful `List.lookup` hit is a member of the association list. -/
lemma lookup_mem {k : String} {v : ColData} :
    ∀ {l : List (String × ColData)}, l.lookup k = some v → (k, v) ∈ l := by
  intro l
  induction l with
  | nil => intro hx; simp [List.lookup] at hx
  | cons a t ih =>
    intro hx
    rw [List.lookup] at hx
    by_cases he : k = a.1
    · rw [he, beq_self_eq_true] at hx
      simp only [Option.some.injEq] at hx
      subst he
      rw [← hx]
      exact List.mem_cons_self _ _
    · rw [beq_eq_false_iff_ne.mpr he] at hx
      exact List.mem_cons_of_mem _ (ih hx)

/-- A nonzero denominator keeps the percentage-change computation
finite and invertible. -/
lemma pct_finite (pred cur : ℚ) (h : cur ≠ 0) :
    ∃ p : ℚ, (fdiv (pred - cur) cur).mul100 = .fin p ∧
      pred = cur * (1 + p / 100) := by
  refine ⟨(pred - cur) / cur * 100, ?_, ?_⟩
  · rw [fdiv, if_neg h, FVal.mul100]
  · field_simp
    ring

/-- The scenario environment indeed produces the scenario body: the
percentage change of `150 → 160.5` evaluates to `7`. -/
lemma scenario_do_GET : (do_GET scenarioEnv 1 none).1 = .ok scenarioBody := by
  rw [do_GET]
  norm_num [scenarioEnv, scenarioBody, SERVE_HORIZONS, List.lookup, fdiv,
    FVal.mul100, parse_include_historical, lowerEq]

/-- C1: `build(table, h)` yields `max(0, n - h)` examples, the `i`-th
target being the target-column value of row `i + h` (in `ℕ`,
`n - h = max (0, n - h)`). -/
theorem c1_build_count_and_alignment (df : DFrame) (target_col : String)
    (horizon : ℕ) (tvals : List ℚ)
    (hcol : getNumCol df.cols target_col = some tvals)
    (hlen : tvals.length = df.dates.length) (_hpos : 1 ≤ horizon) :
    ∃ ds, build_supervised_dataset df target_col horizon = some ds ∧
      ds.y.length = df.dates.length - horizon ∧
      ∀ i, i < df.dates.length - horizon →
        ds.y.getD i 0 = tvals.getD (i + horizon) 0 := by
  refine ⟨_, build_eq df target_col horizon tvals hcol hlen, ?_, ?_⟩
  · simp
  · intro i hi
    rw [List.getD_eq_getElem _ _ (by simpa using hi)]
    simp

/-- Concrete instance for C1: a five-row table, horizon 2, three
examples, targets shifted by two. -/
theorem c1_witness :
    (getNumCol
        [("unemployment_rate", ColData.num [5, 6, 7, 8, 9]),
         ("housing_price_index_value", ColData.num [100, 101, 102, 103, 104])]
        "housing_price_index_value" = some [100, 101, 102, 103, 104]) ∧
    (1 ≤ 2) ∧
    ∃ ds,
      build_supervised_dataset
        ⟨[0, 1, 2, 3, 4],
         [("unemployment_rate", ColData.num [5, 6, 7, 8, 9]),
          ("housing_price_index_value", ColData.num [100, 101, 102, 103, 104])]⟩
        "housing_price_index_value" 2 = some ds ∧
      ds.y.length = [0, 1, 2, 3, 4].length - 2 ∧
      ∀ i, i < [0, 1, 2, 3, 4].length - 2 →
        ds.y.getD i 0 = [(100 : ℚ), 101, 102, 103, 104].getD (i + 2) 0 :=
  ⟨by decide, by decide,
    c1_build_count_and_alignment
      ⟨[0, 1, 2, 3, 4],
       [("unemployment_rate", ColData.num [5, 6, 7, 8, 9]),
        ("housing_price_index_value", ColData.num [100, 101, 102, 103, 104])]⟩
      "housing_price_index_value" 2 [100, 101, 102, 103, 104]
      (by decide) (by decide) (by decide)⟩

/-- C2 as stated is false: the designated target column survives the
exclusion filter (which removes only `ref_date` and `target_`-prefixed
names) and is itself a feature of the built dataset. -/
theorem c2_counterexample :
    ∃ ds,
      build_supervised_dataset
        ⟨[0, 1, 2],
         [("unemployment_rate", ColData.num [5, 6, 7]),
          ("housing_price_index_value", ColData.num [100, 101, 102])]⟩
        "housing_price_index_value" 1 = some ds ∧
      "housing_price_index_value" ∈ ds.featureNames := by
  refine ⟨_, rfl, ?_⟩
  decide

/-- C2 amended: the features of `build(table, h)` are exactly the
numeric columns of the table minus `ref_date` and the `target_`-prefixed
(shift-generated) names; the designated target column, being numeric and
not so named, is itself among the features. -/
theorem c2_amended_features (df : DFrame) (target_col : String) (horizon : ℕ)
    (tvals : List ℚ) (hcol : getNumCol df.cols target_col = some tvals)
    (hname : excludedName target_col = false) :
    ∃ ds, build_supervised_dataset df target_col horizon = some ds ∧
      ds.featureNames =
        ((df.cols.filter (fun c => !excludedName c.1)).filter
          (fun c => c.2.isNum)).map (·.1) ∧
      target_col ∈ ds.featureNames := by
  have hmem : (target_col, ColData.num tvals) ∈ df.cols := by
    apply lookup_mem
    rw [getNumCol] at hcol
    cases hl : df.cols.lookup target_col with
    | none => exact absurd (hl ▸ hcol) (by simp [hl])
    | some cv =>
      cases cv with
      | num vs =>
        simp only [hl, Option.some.injEq] at hcol
        rw [hcol]
      | str vs => exact absurd (hl ▸ hcol) (by simp [hl])
  rw [build_supervised_dataset, hcol]
  refine ⟨_, rfl, rfl, ?_⟩
  show target_col ∈
    ((df.cols.filter (fun c => !excludedName c.1)).filter
      (fun c => c.2.isNum)).map (·.1)
  refine List.mem_map.mpr ⟨(target_col, ColData.num tvals), ?_, rfl⟩
  rw [List.mem_filter, List.mem_filter]
  exact ⟨⟨hmem, by simp [hname]⟩, rfl⟩

/-- Concrete instance for the amended C2. -/
theorem c2_witness :
    (getNumCol
        [("unemployment_rate", ColData.num [5, 6, 7]),
         ("housing_price_index_value", ColData.num [100, 101, 102])]
        "housing_price_index_value" = some [100, 101, 102]) ∧
    (excludedName "housing_price_index_value" = false) ∧
    ∃ ds,
      build_supervised_dataset
        ⟨[0, 1, 2],
         [("unemployment_rate", ColData.num [5, 6, 7]),
          ("housing_price_index_value", ColData.num [100, 101, 102])]⟩
        "housing_price_index_value" 1 = some ds ∧
      ds.featureNames =
        (([("unemployment_rate", ColData.num [5, 6, 7]),
           ("housing_price_index_value", ColData.num [100, 101, 102])].filter
            (fun c => !excludedName c.1)).filter (fun c => c.2.isNum)).map (·.1) ∧
      "housing_price_index_value" ∈ ds.featureNames :=
  ⟨by decide, by decide,
    c2_amended_features
      ⟨[0, 1, 2],
       [("unemployment_rate", ColData.num [5, 6, 7]),
        ("housing_price_index_value", ColData.num [100, 101, 102])]⟩
      "housing_price_index_value" 1 [100, 101, 102] (by decide) (by decide)⟩

/-- C3: the chronological split puts exactly the first `⌊0.8·n⌋` rows in
the training set and the remaining `⌈0.2·n⌉ = (n+4)/5` in the test set;
at `n = 37` that is 29 and 8. -/
theorem c3_split_sizes {α : Type} (ds : List α) (hne : 0 < ds.length) :
    (timeSplit ds).1 = ds.take (4 * ds.length / 5) ∧
    (timeSplit ds).2 = ds.drop (4 * ds.length / 5) ∧
    (timeSplit ds).1.length = 4 * ds.length / 5 ∧
    (timeSplit ds).2.length = (ds.length + 4) / 5 ∧
    ds.length - 4 * ds.length / 5 = (ds.length + 4) / 5 ∧
    (ds.length = 37 →
      (timeSplit ds).1.length = 29 ∧ (timeSplit ds).2.length = 8) := by
  have hk : 4 * ds.length / 5 ≤ ds.length := by omega
  have htake : (timeSplit ds).1.length = 4 * ds.length / 5 := by
    simp only [timeSplit, List.length_take]
    omega
  have hdrop : (timeSplit ds).2.length = ds.length - 4 * ds.length / 5 := by
    simp only [timeSplit, List.length_drop]
  refine ⟨rfl, rfl, htake, ?_, by omega, ?_⟩
  · rw [hdrop]; omega
  · intro h37
    rw [htake, hdrop, h37]
    omega

/-- Concrete instance for C3 at `n = 37`. -/
theorem c3_witness :
    0 < (List.range 37).length ∧
    (timeSplit (List.range 37)).1.length = 29 ∧
    (timeSplit (List.range 37)).2.length = 8 :=
  ⟨by decide,
    (c3_split_sizes (List.range 37) (by decide)).2.2.2.2.2 (by decide)⟩

/-- C4: (a) building the supervised dataset from a date-sorted table
yields a date-sorted dataset, and (b) the chronological split of a
date-sorted sequence never places a test element below a train element. -/
theorem c4_no_lookahead :
    (∀ (df : DFrame) (target_col : String) (horizon : ℕ) (tvals : List ℚ)
        (ds : SupDataset),
      getNumCol df.cols target_col = some tvals →
      tvals.length = df.dates.length →
      build_supervised_dataset df target_col horizon = some ds →
      List.Sorted (· ≤ ·) df.dates → List.Sorted (· ≤ ·) ds.dates) ∧
    (∀ dates : List ℕ, List.Sorted (· ≤ ·) dates →
      ∀ a ∈ (timeSplit dates).1, ∀ b ∈ (timeSplit dates).2, a ≤ b) := by
  constructor
  · intro df target_col horizon tvals ds hcol hlen hbuild hsorted
    rw [build_eq df target_col horizon tvals hcol hlen, Option.some.injEq] at hbuild
    have hdates : ds.dates = (List.range (df.dates.length - horizon)).map
        (fun i => df.dates.getD i 0) := by rw [← hbuild]
    rw [hdates, List.Sorted, List.pairwise_iff_getElem]
    intro i j hi hj hij
    simp only [List.length_map, List.length_range] at hi hj
    simp only [List.getElem_map, List.getElem_range]
    rw [List.getD_eq_getElem _ _ (by omega), List.getD_eq_getElem _ _ (by omega)]
    exact hsorted.rel_get_of_le (by exact_mod_cast Nat.le_of_lt hij)
  · intro dates hsorted a ha b hb
    have hsp : List.Pairwise (· ≤ ·)
        (dates.take (4 * dates.length / 5) ++ dates.drop (4 * dates.length / 5)) := by
      rw [List.take_append_drop]
      exact hsorted
    exact (List.pairwise_append.mp hsp).2.2 a ha b hb

/-- Concrete instance for C4: building from a sorted three-row table
keeps the dates sorted, and splitting a sorted date sequence never puts
a smaller date in the test part. -/
theorem c4_witness :
    (∃ ds,
      build_supervised_dataset
        ⟨[10, 20, 30], [("housing_price_index_value", ColData.num [1, 2, 3])]⟩
        "housing_price_index_value" 1 = some ds ∧
      List.Sorted (· ≤ ·) ds.dates) ∧
    (List.Sorted (· ≤ ·) [3, 5, 7]) ∧
    ∀ a ∈ (timeSplit [3, 5, 7]).1, ∀ b ∈ (timeSplit [3, 5, 7]).2, a ≤ b :=
  ⟨⟨_, rfl,
    c4_no_lookahead.1
      ⟨[10, 20, 30], [("housing_price_index_value", ColData.num [1, 2, 3])]⟩
      "housing_price_index_value" 1 [1, 2, 3] _ (by decide) (by decide) rfl
      (by decide)⟩,
   by decide, c4_no_lookahead.2 [3, 5, 7] (by decide)⟩

/-- C5: on every success with nonzero `current_hpi`, the returned
`percentage_change` is finite and satisfies
`predicted = current * (1 + percentage_change / 100)` exactly. -/
theorem c5_percentage_change (env : ServeEnv) (horizon : ℤ)
    (v : Option String) (b : PredBody)
    (hok : (do_GET env horizon v).1 = .ok b) (hne : b.current_hpi ≠ 0) :
    ∃ p : ℚ, b.percentage_change = .fin p ∧
      b.predicted_hpi = b.current_hpi * (1 + p / 100) := by
  rw [do_GET] at hok
  split at hok
  · split at hok
    · split at hok
      · exact absurd hok (by simp)
      · split at hok
        · exact absurd hok (by simp)
        · simp only [Resp.ok.injEq] at hok
          subst hok
          exact pct_finite _ _ hne
    · exact absurd hok (by simp)
  · exact absurd hok (by simp)

/-- Concrete instance for C5: `current = 150`, `predicted = 160.5`
gives `percentage_change = 7`, satisfying the algebraic relation. -/
theorem c5_witness :
    ∃ p : ℚ, scenarioBody.percentage_change = .fin p ∧
      scenarioBody.predicted_hpi = scenarioBody.current_hpi * (1 + p / 100) :=
  c5_percentage_change scenarioEnv 1 none scenarioBody scenario_do_GET
    (by norm_num [scenarioBody])

/-- C6: a parsed horizon outside the supported set yields the 400
invalid-horizon error without any model-load attempt (second component
`false`), and never a success body. -/
theorem c6_invalid_horizon (env : ServeEnv) (horizon : ℤ) (v : Option String)
    (hout : horizon ∉ SERVE_HORIZONS) :
    (do_GET env horizon v).2 = false ∧
    (do_GET env horizon v).1 =
      .err 400 "Invalid horizon. Must be one of [1, 2, 3, 6, 12, 24, 36]" ∧
    ∀ b, (do_GET env horizon v).1 ≠ .ok b := by
  rw [do_GET, if_neg hout]
  exact ⟨rfl, rfl, fun b => by simp⟩

/-- Concrete instance for C6 at horizon 5. -/
theorem c6_witness :
    ((5 : ℤ) ∉ SERVE_HORIZONS) ∧
    (do_GET emptyTableEnv 5 none).2 = false ∧
    (do_GET emptyTableEnv 5 none).1 =
      .err 400 "Invalid horizon. Must be one of [1, 2, 3, 6, 12, 24, 36]" ∧
    ∀ b, (do_GET emptyTableEnv 5 none).1 ≠ .ok b :=
  ⟨by decide,
    (c6_invalid_horizon emptyTableEnv 5 none (by decide)).1,
    (c6_invalid_horizon emptyTableEnv 5 none (by decide)).2.1,
    (c6_invalid_horizon emptyTableEnv 5 none (by decide)).2.2⟩

/-- C7: a supported horizon whose artifact file is absent yields the 404
error and never a success body. -/
theorem c7_missing_artifact (env : ServeEnv) (horizon : ℤ) (v : Option String)
    (hin : horizon ∈ SERVE_HORIZONS) (hfile : env.modelFile horizon = false) :
    (do_GET env horizon v).1 = .err 404 "Model for horizon not found" ∧
    ∀ b, (do_GET env horizon v).1 ≠ .ok b := by
  rw [do_GET, if_pos hin, hfile]
  exact ⟨rfl, fun b => by simp⟩

/-- Concrete instance for C7 at horizon 1. -/
theorem c7_witness :
    ((1 : ℤ) ∈ SERVE_HORIZONS) ∧ (noArtifactEnv.modelFile 1 = false) ∧
    (do_GET noArtifactEnv 1 none).1 = .err 404 "Model for horizon not found" ∧
    ∀ b, (do_GET noArtifactEnv 1 none).1 ≠ .ok b :=
  ⟨by decide, by decide,
    (c7_missing_artifact noArtifactEnv 1 none (by decide) (by decide)).1,
    (c7_missing_artifact noArtifactEnv 1 none (by decide) (by decide)).2⟩

/-- C8 evaluated at the failing input: with a zero current value the
handler does not fail with a computation error — it returns a 200
success body whose `percentage_change` is the propagated infinity. -/
theorem c8_zero_current_propagates_infinity :
    (do_GET zeroHpiEnv 1 none).1 =
      .ok
        { horizon_months := 1
          current_hpi := 0
          predicted_hpi := 321 / 2
          percentage_change := .inf
          ref_date := 202501
          historical := none } ∧
    (do_GET zeroHpiEnv 1 none).1.isOk = true := by
  have hresp : (do_GET zeroHpiEnv 1 none).1 =
      .ok
        { horizon_months := 1
          current_hpi := 0
          predicted_hpi := 321 / 2
          percentage_change := .inf
          ref_date := 202501
          historical := none } := by
    rw [do_GET]
    norm_num [zeroHpiEnv, SERVE_HORIZONS, List.lookup, fdiv, FVal.mul100,
      parse_include_historical, lowerEq]
  exact ⟨hresp, by rw [hresp]; rfl⟩

/-- C9 as stated is false: with a populated model registry and an empty
indicator table, the handler's `ValueError` path returns status 400 —
the same status class as input-validation errors, not a distinct one. -/
theorem c9_counterexample :
    (do_GET emptyTableEnv 1 none).1 =
      .err 400 "No data found in toronto_housing table" := by
  decide

/-- C9 amended: an empty indicator table surfaces as an explicit error
(`ValueError` mapped to status 400, sharing the input-validation status)
and never as a placeholder success body. -/
theorem c9_empty_table_error (env : ServeEnv) (horizon : ℤ) (v : Option String)
    (hin : horizon ∈ SERVE_HORIZONS) (hfile : env.modelFile horizon = true)
    (hempty : env.latest = none) :
    (do_GET env horizon v).1 =
      .err 400 "No data found in toronto_housing table" ∧
    ∀ b, (do_GET env horizon v).1 ≠ .ok b := by
  rw [do_GET, if_pos hin, hfile, hempty]
  exact ⟨rfl, fun b => by simp⟩

/-- Concrete instance for the amended C9. -/
theorem c9_witness :
    ((1 : ℤ) ∈ SERVE_HORIZONS) ∧ (emptyTableEnv.modelFile 1 = true) ∧
    (emptyTableEnv.latest = none) ∧
    (do_GET emptyTableEnv 1 none).1 =
      .err 400 "No data found in toronto_housing table" ∧
    ∀ b, (do_GET emptyTableEnv 1 none).1 ≠ .ok b :=
  ⟨by decide, by decide, by decide,
    (c9_empty_table_error emptyTableEnv 1 none (by decide) (by decide) rfl).1,
    (c9_empty_table_error emptyTableEnv 1 none (by decide) (by decide) rfl).2⟩

/-- C10: `include_historical` is true exactly for a present value whose
lowercasing is `true`; every other value is false, and the parameter
never changes the response outside the `historical` field (in
particular it never causes a validation error). -/
theorem c10_include_historical :
    (parse_include_historical none = false) ∧
    (∀ s, parse_include_historical (some s) = true ↔
      s.data.map Char.toLower = "true".data) ∧
    (parse_include_historical (some "TRUE") = true) ∧
    (parse_include_historical (some "yes") = false) ∧
    (parse_include_historical (some "1") = false) ∧
    (∀ (env : ServeEnv) (horizon : ℤ) (v : Option String),
      ((do_GET env horizon v).1).dropHistorical =
        ((do_GET env horizon none).1).dropHistorical ∧
      (do_GET env horizon v).2 = (do_GET env horizon none).2) := by
  refine ⟨by decide, ?_, by decide, by decide, by decide, ?_⟩
  · intro s
    rw [parse_include_historical, Option.getD, lowerEq, beq_iff_eq]
  · intro env horizon v
    by_cases h1 : horizon ∈ SERVE_HORIZONS
    · by_cases h2 : env.modelFile horizon = true
      · cases hl : env.latest with
        | none => simp [do_GET, h1, h2, hl]
        | some row =>
          cases hc : row.cols.lookup "housing_price_index_value" with
          | none => simp [do_GET, h1, h2, hl, hc]
          | some cur => simp [do_GET, h1, h2, hl, hc, Resp.dropHistorical]
      · simp [do_GET, h1, h2]
    · simp [do_GET, h1]

end THPP
